import Mathlib

/-!
Verification of the unified file-storage abstraction of the FlashbackBot
repository: the `LocalFileHandler`, `DropboxFileHandler` (with its reader,
writer and appender helpers) and `S3FileHandler` classes, shallowly embedded
as pure Lean functions over explicit adapter states.

Python strings are modelled as lists of code points (`List Nat`), byte
sequences as lists of byte values (`List Nat`), and the host language's
UTF-8 `str.encode` / `bytes.decode` primitives as an executable UTF-8
encoder and decoder over those lists.  Python dicts (the write-back caches)
and the remote object stores are modelled as association lists.  Every
fallible operation returns the post state together with an
`Except PyErr` result, so that an exception that escapes mid-operation
still leaves its state effects observable.
-/

set_option maxRecDepth 8192

/-- A byte sequence (each entry a byte value). -/
abbrev ByteSeq := List Nat

/-- Python `str | bytes` content as stored in caches and passed to the
    handlers: either text (a list of Unicode code points) or raw bytes. -/
inductive Content where
  | text (s : List Nat)
  | bytes (b : ByteSeq)
  deriving DecidableEq, Repr

/-- `isinstance(data, str)` -/
def Content.isText : Content → Bool
  | .text _ => true
  | .bytes _ => false

/-- `isinstance(data, bytes)` -/
def Content.isBytes : Content → Bool
  | .text _ => false
  | .bytes _ => true

/-- The file-mode strings the repository actually passes to its handlers:
    `"r" "rb" "w" "wb" "a" "ab" "x" "xb" "b"` (the Dropbox flush uses the
    bare `"b"` mode for binary cache entries). -/
inductive Mode where
  | r | rb | w | wb | a | ab | x | xb | b
  deriving DecidableEq, Repr

/-- Python `"b" in mode`. -/
def Mode.hasB : Mode → Bool
  | .rb => true | .wb => true | .ab => true | .xb => true | .b => true
  | _ => false

/-- Python `"a" in mode`. -/
def Mode.hasA : Mode → Bool
  | .a => true | .ab => true
  | _ => false

/-- Python `"x" in mode`. -/
def Mode.hasX : Mode → Bool
  | .x => true | .xb => true
  | _ => false

/-- Exceptions raised by the embedded code, named after the Python
    exception classes they model.  `valueErr` covers `ValueError`
    (which includes `UnicodeDecodeError`), `apiError` a Dropbox/S3
    backend error re-raised to the caller, `osError` a non-`FileNotFoundError`
    `OSError` from the local filesystem. -/
inductive PyErr where
  | fileNotFound
  | valueErr
  | typeErr
  | fileExists
  | apiError
  | decodeErr
  | osError
  deriving DecidableEq, Repr

instance {e a : Type} [DecidableEq e] [DecidableEq a] : DecidableEq (Except e a) :=
  fun x y =>
    match x, y with
    | .ok v, .ok w =>
      if h : v = w then .isTrue (by rw [h]) else .isFalse (by intro hc; cases hc; exact h rfl)
    | .error v, .error w =>
      if h : v = w then .isTrue (by rw [h]) else .isFalse (by intro hc; cases hc; exact h rfl)
    | .ok _, .error _ => .isFalse (by intro hc; cases hc)
    | .error _, .ok _ => .isFalse (by intro hc; cases hc)

/-! ## UTF-8

Executable model of Python's `str.encode("utf-8")` and
`bytes.decode("utf-8")` over code-point / byte lists. The decoder checks
leading-byte ranges and continuation bytes (it does not reject overlong
forms, which no claim depends on). -/

/-- Encode one code point to its UTF-8 byte sequence. -/
def utf8EncodeChar (c : Nat) : ByteSeq :=
  if c < 0x80 then [c]
  else if c < 0x800 then [0xC0 + c / 0x40, 0x80 + c % 0x40]
  else if c < 0x10000 then
    [0xE0 + c / 0x1000, 0x80 + (c / 0x40) % 0x40, 0x80 + c % 0x40]
  else
    [0xF0 + c / 0x40000, 0x80 + (c / 0x1000) % 0x40, 0x80 + (c / 0x40) % 0x40,
      0x80 + c % 0x40]

/-- `s.encode("utf-8")`. -/
def utf8Encode (s : List Nat) : ByteSeq :=
  (s.map utf8EncodeChar).flatten

/-- Is `b` a UTF-8 continuation byte? -/
def isCont (b : Nat) : Prop := 0x80 ≤ b ∧ b < 0xC0

instance (b : Nat) : Decidable (isCont b) := by
  unfold isCont; infer_instance

/-- Decode one UTF-8-encoded code point from the front of a byte sequence;
    returns the code point and the remaining bytes, or `none` on a malformed
    head sequence. -/
def utf8DecodeHead : ByteSeq → Option (Nat × ByteSeq)
  | [] => none
  | b0 :: rest =>
    if b0 < 0x80 then some (b0, rest)
    else if b0 < 0xC0 then none
    else if b0 < 0xE0 then
      match rest with
      | b1 :: r =>
        if isCont b1 then some ((b0 - 0xC0) * 0x40 + (b1 - 0x80), r) else none
      | [] => none
    else if b0 < 0xF0 then
      match rest with
      | b1 :: b2 :: r =>
        if isCont b1 ∧ isCont b2 then
          some ((b0 - 0xE0) * 0x1000 + (b1 - 0x80) * 0x40 + (b2 - 0x80), r)
        else none
      | _ => none
    else if b0 < 0xF8 then
      match rest with
      | b1 :: b2 :: b3 :: r =>
        if isCont b1 ∧ isCont b2 ∧ isCont b3 then
          some ((b0 - 0xF0) * 0x40000 + (b1 - 0x80) * 0x1000 +
            (b2 - 0x80) * 0x40 + (b3 - 0x80), r)
        else none
      | _ => none
    else none

theorem utf8DecodeHead_length : ∀ (l : ByteSeq) (c : Nat) (r : ByteSeq),
    utf8DecodeHead l = some (c, r) → r.length < l.length := by
  intro l c r h
  match l with
  | [] => simp [utf8DecodeHead] at h
  | b0 :: rest =>
    rw [utf8DecodeHead.eq_def] at h
    simp only at h
    split_ifs at h with h1 h2 h3 h4 h5
    · cases h
      simp
    · cases rest with
      | nil => simp at h
      | cons b1 r1 =>
        simp only at h
        split_ifs at h
        cases h
        simp
        omega
    · match rest with
      | [] => simp at h
      | [b1] => simp at h
      | b1 :: b2 :: r2 =>
        simp only at h
        split_ifs at h
        cases h
        simp
        omega
    · match rest with
      | [] => simp at h
      | [b1] => simp at h
      | [b1, b2] => simp at h
      | b1 :: b2 :: b3 :: r3 =>
        simp only at h
        split_ifs at h
        cases h
        simp
        omega

/-- The decoding loop, fuelled by the number of bytes remaining (each
    decoded code point consumes at least one byte, so `l.length` fuel
    always suffices). -/
def utf8DecodeLoop : Nat → ByteSeq → Option (List Nat)
  | _, [] => some []
  | 0, _ :: _ => none
  | fuel + 1, b0 :: rest =>
    match utf8DecodeHead (b0 :: rest) with
    | none => none
    | some (c, r) => (utf8DecodeLoop fuel r).map (fun s => c :: s)

theorem utf8DecodeLoop_fuel : ∀ (fuel fuel' : Nat) (l : ByteSeq),
    l.length ≤ fuel → l.length ≤ fuel' →
    utf8DecodeLoop fuel l = utf8DecodeLoop fuel' l := by
  intro fuel
  induction fuel with
  | zero =>
    intro fuel' l h h'
    match l with
    | [] => cases fuel' <;> rfl
    | b0 :: rest => simp at h
  | succ n ih =>
    intro fuel' l h h'
    match l with
    | [] => cases fuel' <;> rfl
    | b0 :: rest =>
      cases fuel' with
      | zero => simp at h'
      | succ m =>
        simp only [utf8DecodeLoop]
        cases hh : utf8DecodeHead (b0 :: rest) with
        | none => rfl
        | some cr =>
          obtain ⟨c, r⟩ := cr
          have hr : r.length < (b0 :: rest).length :=
            utf8DecodeHead_length _ _ _ hh
          simp only [List.length_cons] at h h' hr
          show (utf8DecodeLoop n r).map (fun s => c :: s) =
            (utf8DecodeLoop m r).map (fun s => c :: s)
          rw [ih m r (by omega) (by omega)]

/-- `b.decode("utf-8")`: `none` models a `UnicodeDecodeError`. -/
def utf8Decode (l : ByteSeq) : Option (List Nat) :=
  utf8DecodeLoop l.length l

theorem utf8Encode_append (a b : List Nat) :
    utf8Encode (a ++ b) = utf8Encode a ++ utf8Encode b := by
  simp [utf8Encode]

theorem utf8Decode_nil : utf8Decode [] = some [] := rfl

theorem utf8Decode_step (b0 : Nat) (rest : ByteSeq) (c : Nat) (r : ByteSeq)
    (h : utf8DecodeHead (b0 :: rest) = some (c, r)) :
    utf8Decode (b0 :: rest) = (utf8Decode r).map (fun s => c :: s) := by
  have hr : r.length < (b0 :: rest).length := utf8DecodeHead_length _ _ _ h
  simp only [List.length_cons] at hr
  unfold utf8Decode
  simp only [List.length_cons, utf8DecodeLoop, h]
  rw [utf8DecodeLoop_fuel rest.length r.length r (by omega) (by omega)]

theorem utf8Decode_stuck (b0 : Nat) (rest : ByteSeq)
    (h : utf8DecodeHead (b0 :: rest) = none) :
    utf8Decode (b0 :: rest) = none := by
  unfold utf8Decode
  simp only [List.length_cons, utf8DecodeLoop, h]

/-- `utf8DecodeHead` undoes `utf8EncodeChar` at the front of a byte stream. -/
theorem utf8DecodeHead_encodeChar (c : Nat) (tail : ByteSeq) (hc : c < 0x110000) :
    utf8DecodeHead (utf8EncodeChar c ++ tail) = some (c, tail) := by
  by_cases h1 : c < 0x80
  · have e : utf8EncodeChar c = [c] := by simp [utf8EncodeChar, h1]
    rw [e, List.singleton_append, utf8DecodeHead.eq_def]
    simp [h1]
  · by_cases h2 : c < 0x800
    · have e : utf8EncodeChar c = [0xC0 + c / 0x40, 0x80 + c % 0x40] := by
        simp [utf8EncodeChar, h1, h2]
      rw [e]
      show utf8DecodeHead ((0xC0 + c / 0x40) :: (0x80 + c % 0x40) :: tail) = _
      rw [utf8DecodeHead.eq_def]
      have hb1 : ¬ (0xC0 + c / 0x40) < 0x80 := by omega
      have hb2 : ¬ (0xC0 + c / 0x40) < 0xC0 := by omega
      have hb3 : (0xC0 + c / 0x40) < 0xE0 := by omega
      have hco : isCont (0x80 + c % 0x40) := ⟨by omega, by omega⟩
      simp only [hb1, hb2, hb3, if_false, if_true, hco, Option.some.injEq,
        Prod.mk.injEq, and_true, if_neg, if_pos, ite_true, ite_false]
      omega
    · by_cases h3 : c < 0x10000
      · have e : utf8EncodeChar c =
            [0xE0 + c / 0x1000, 0x80 + (c / 0x40) % 0x40, 0x80 + c % 0x40] := by
          simp [utf8EncodeChar, h1, h2, h3]
        rw [e]
        show utf8DecodeHead ((0xE0 + c / 0x1000) :: (0x80 + (c / 0x40) % 0x40) ::
          (0x80 + c % 0x40) :: tail) = _
        rw [utf8DecodeHead.eq_def]
        have hb1 : ¬ (0xE0 + c / 0x1000) < 0x80 := by omega
        have hb2 : ¬ (0xE0 + c / 0x1000) < 0xC0 := by omega
        have hb3 : ¬ (0xE0 + c / 0x1000) < 0xE0 := by omega
        have hb4 : (0xE0 + c / 0x1000) < 0xF0 := by omega
        have hco1 : isCont (0x80 + (c / 0x40) % 0x40) := ⟨by omega, by omega⟩
        have hco2 : isCont (0x80 + c % 0x40) := ⟨by omega, by omega⟩
        simp only [hb1, hb2, hb3, hb4, hco1, hco2, Option.some.injEq,
          Prod.mk.injEq, and_true, true_and, and_self, if_true, if_false,
          ite_true, ite_false]
        omega
      · have e : utf8EncodeChar c =
            [0xF0 + c / 0x40000, 0x80 + (c / 0x1000) % 0x40,
              0x80 + (c / 0x40) % 0x40, 0x80 + c % 0x40] := by
          simp [utf8EncodeChar, h1, h2, h3]
        rw [e]
        show utf8DecodeHead ((0xF0 + c / 0x40000) :: (0x80 + (c / 0x1000) % 0x40) ::
          (0x80 + (c / 0x40) % 0x40) :: (0x80 + c % 0x40) :: tail) = _
        rw [utf8DecodeHead.eq_def]
        have hb1 : ¬ (0xF0 + c / 0x40000) < 0x80 := by omega
        have hb2 : ¬ (0xF0 + c / 0x40000) < 0xC0 := by omega
        have hb3 : ¬ (0xF0 + c / 0x40000) < 0xE0 := by omega
        have hb4 : ¬ (0xF0 + c / 0x40000) < 0xF0 := by omega
        have hb5 : (0xF0 + c / 0x40000) < 0xF8 := by omega
        have hco1 : isCont (0x80 + (c / 0x1000) % 0x40) := ⟨by omega, by omega⟩
        have hco2 : isCont (0x80 + (c / 0x40) % 0x40) := ⟨by omega, by omega⟩
        have hco3 : isCont (0x80 + c % 0x40) := ⟨by omega, by omega⟩
        simp only [hb1, hb2, hb3, hb4, hb5, hco1, hco2, hco3, Option.some.injEq,
          Prod.mk.injEq, and_true, true_and, and_self, if_true, if_false,
          ite_true, ite_false]
        omega

/-- Decoding inverts encoding on any text whose code points are in the
    Unicode range (every Python `str` satisfies this). -/
theorem utf8Decode_utf8Encode (s : List Nat) (h : ∀ c ∈ s, c < 0x110000) :
    utf8Decode (utf8Encode s) = some s := by
  induction s with
  | nil => exact utf8Decode_nil
  | cons c t ih =>
    have hc : c < 0x110000 := h c (by simp)
    have ih' : utf8Decode (utf8Encode t) = some t :=
      ih (fun d hd => h d (by simp [hd]))
    have hsplit : utf8Encode (c :: t) = utf8EncodeChar c ++ utf8Encode t := by
      simp [utf8Encode]
    have hhead := utf8DecodeHead_encodeChar c (utf8Encode t) hc
    have hne : utf8EncodeChar c ++ utf8Encode t ≠ [] := by
      by_cases h1 : c < 0x80 <;> by_cases h2 : c < 0x800 <;>
        by_cases h3 : c < 0x10000 <;> simp [utf8EncodeChar, h1, h2, h3]
    rw [hsplit]
    match he : utf8EncodeChar c ++ utf8Encode t with
    | [] => exact absurd he hne
    | b0 :: rest =>
      rw [he] at hhead
      rw [utf8Decode_step b0 rest c (utf8Encode t) hhead, ih']
      rfl

/-- `str.encode` / bytes coercion used throughout the handlers:
    `data.encode("utf-8") if isinstance(data, str) else data`. -/
def Content.toBytes : Content → ByteSeq
  | .text s => utf8Encode s
  | .bytes b => b

/-! ## Association-list stores (Python dicts and the remote object stores) -/

/-- `d.get(p)` / `p in d` on an association list. -/
def lookupStore {α : Type} : List (String × α) → String → Option α
  | [], _ => none
  | (q, v) :: r, p => if q = p then some v else lookupStore r p

/-- `d[p] = v`: replace the binding for `p`, or add it at the end. -/
def setStore {α : Type} : List (String × α) → String → α → List (String × α)
  | [], p, v => [(p, v)]
  | (q, w) :: r, p, v => if q = p then (q, v) :: r else (q, w) :: setStore r p v

/-- `del d[p]` / object deletion. -/
def delStore {α : Type} : List (String × α) → String → List (String × α)
  | [], _ => []
  | (q, w) :: r, p => if q = p then delStore r p else (q, w) :: delStore r p

theorem lookupStore_setStore_self {α : Type} (l : List (String × α)) (p : String) (v : α) :
    lookupStore (setStore l p v) p = some v := by
  induction l with
  | nil => simp [setStore, lookupStore]
  | cons hd tl ih =>
    obtain ⟨q, w⟩ := hd
    by_cases h : q = p
    · simp [setStore, lookupStore, h]
    · simp [setStore, lookupStore, h, ih]

/-! ## Chunked upload protocol (`DropboxFileWriter._upload_in_chunks`)

The session trace records the exact client calls the loop issues:
the `files_upload_session_start` payload, each
`files_upload_session_append_v2` payload with the cursor offset passed
alongside it, and the `files_upload_session_finish` cursor offset, payload
and commit info. -/

/-- Trace of one chunked upload session. -/
structure ChunkedUpload where
  firstChunk : ByteSeq
  appends : List (ByteSeq × Nat)
  finishOffset : Nat
  finishData : ByteSeq
  commitPath : String
  commitOverwrite : Bool
  deriving DecidableEq, Repr

/-- `for i in range(chunk_size, len(data), chunk_size)` of
    `_upload_in_chunks`, rendered as recursion over the running index `i`
    and the cursor offset `ofs` with an explicit fuel bound (the loop
    performs at most `len(data)` iterations, so callers pass
    `data.length` as fuel): each iteration appends the slice
    `data[i : i + chunk_size]` together with the cursor offset passed to
    `files_upload_session_append_v2`, then advances the offset by the
    chunk's exact length.  Returns the list of appends and the final
    cursor offset. -/
def sessionLoop (cs : Nat) (data : ByteSeq) : Nat → Nat → Nat →
    List (ByteSeq × Nat) × Nat
  | 0, _, ofs => ([], ofs)
  | fuel + 1, i, ofs =>
    if i < data.length then
      let chunk := (data.drop i).take cs
      let r := sessionLoop cs data fuel (i + cs) (ofs + chunk.length)
      ((chunk, ofs) :: r.1, r.2)
    else ([], ofs)

/-- The full session trace of `_upload_in_chunks` on payload `data`:
    the session is started with `data[:chunk_size]`, the cursor is
    initialized to that chunk's length, the loop appends the remaining
    slices, and the session is finished with the empty payload `b""` and a
    commit against `path` with overwrite mode. -/
def mkChunkTrace (cs : Nat) (path : String) (data : ByteSeq) : ChunkedUpload :=
  let first := data.take cs
  let r := sessionLoop cs data data.length cs first.length
  { firstChunk := first
    appends := r.1
    finishOffset := r.2
    finishData := []
    commitPath := path
    commitOverwrite := true }

/-- `chunk_size = 4 * 1024 * 1024` in `_upload_in_chunks`. -/
def dropboxChunkSize : Nat := 4 * 1024 * 1024

/-- `self.large_file_limit = 150 * 1024 * 1024` in `DropboxFileWriter.__init__`. -/
def initialLargeFileLimit : Int := 150 * 1024 * 1024

/-! ## Size-display arithmetic (`convert_size_to_display`,
`calculate_new_size_limit`)

Python float arithmetic is modelled exactly over `ℚ`; `int(x)` is
truncation toward zero. -/

/-- The unit strings returned by `convert_size_to_display`. -/
inductive SizeUnit where
  | KB | MB | GB
  deriving DecidableEq, Repr

/-- `DropboxFileHandler.convert_size_to_display`. -/
def convert_size_to_display (size_in_bytes : Nat) : Rat × SizeUnit :=
  if size_in_bytes < 1000 * 1024 then ((size_in_bytes : Rat) / 1024, .KB)
  else if size_in_bytes < 1000 * 1024 ^ 2 then ((size_in_bytes : Rat) / 1024 ^ 2, .MB)
  else ((size_in_bytes : Rat) / 1024 ^ 3, .GB)

/-- Python `int(q)`: truncation toward zero. -/
def pyIntOfRat (q : Rat) : Int :=
  if q < 0 then Int.ceil q else Int.floor q

/-- `DropboxFileWriter.calculate_new_size_limit`. -/
def calculate_new_size_limit (current_size_display : Rat) (unit : SizeUnit)
    (subtract_size_mb : Rat) : Int :=
  let size_in_bytes : Rat :=
    match unit with
    | .KB => current_size_display * 1024
    | .MB => current_size_display * 1024 ^ 2
    | .GB => current_size_display * 1024 ^ 3
  let subtract_bytes := subtract_size_mb * 1024 ^ 2
  pyIntOfRat (size_in_bytes - subtract_bytes)

/-- The size-limit update `_upload_regular` performs on a size-related
    timeout: convert the attempted payload size to display units, then
    subtract a 5 MB margin. -/
def newSizeLimitAfterTimeout (data_size : Nat) : Int :=
  let d := convert_size_to_display data_size
  calculate_new_size_limit d.1 d.2 5

theorem pyIntOfRat_intCast (m : Int) : pyIntOfRat (m : Rat) = m := by
  unfold pyIntOfRat
  split_ifs <;> simp

/-- Exact-arithmetic content of the self-tuning backoff: the new limit is
    always the attempted payload size minus exactly 5 MB. -/
theorem newSizeLimitAfterTimeout_eq (n : Nat) :
    newSizeLimitAfterTimeout n = (n : Int) - 5 * 1024 ^ 2 := by
  unfold newSizeLimitAfterTimeout convert_size_to_display calculate_new_size_limit
  have key : ∀ k : Nat, 0 < k →
      ((n : Rat) / (k : Rat)) * (k : Rat) - 5 * 1024 ^ 2 =
        (((n : Int) - 5 * 1024 ^ 2 : Int) : Rat) := by
    intro k hk
    have hkz : k ≠ 0 := by omega
    have hkk : (k : Rat) ≠ 0 := by exact_mod_cast hkz
    rw [div_mul_cancel₀ _ hkk]
    push_cast
    ring
  split_ifs with h1 h2
  · simp only
    have h1024 : ((1024 : Nat) : Rat) = (1024 : Rat) := by norm_num
    rw [show ((n : Rat) / 1024 * 1024 - 5 * 1024 ^ 2 : Rat) =
      (((n : Int) - 5 * 1024 ^ 2 : Int) : Rat) from by
        have := key 1024 (by norm_num)
        push_cast at this ⊢
        linarith [this]]
    exact pyIntOfRat_intCast _
  · simp only
    rw [show ((n : Rat) / 1024 ^ 2 * 1024 ^ 2 - 5 * 1024 ^ 2 : Rat) =
      (((n : Int) - 5 * 1024 ^ 2 : Int) : Rat) from by
        have := key (1024 ^ 2) (by norm_num)
        push_cast at this ⊢
        linarith [this]]
    exact pyIntOfRat_intCast _
  · simp only
    rw [show ((n : Rat) / 1024 ^ 3 * 1024 ^ 3 - 5 * 1024 ^ 2 : Rat) =
      (((n : Int) - 5 * 1024 ^ 2 : Int) : Rat) from by
        have := key (1024 ^ 3) (by norm_num)
        push_cast at this ⊢
        linarith [this]]
    exact pyIntOfRat_intCast _

theorem sessionLoop_zero (cs : Nat) (data : ByteSeq) (i ofs : Nat) :
    sessionLoop cs data 0 i ofs = ([], ofs) := rfl

theorem sessionLoop_succ (cs : Nat) (data : ByteSeq) (fuel i ofs : Nat) :
    sessionLoop cs data (fuel + 1) i ofs =
      if i < data.length then
        (((data.drop i).take cs, ofs) ::
          (sessionLoop cs data fuel (i + cs) (ofs + ((data.drop i).take cs).length)).1,
         (sessionLoop cs data fuel (i + cs) (ofs + ((data.drop i).take cs).length)).2)
      else ([], ofs) := by
  rw [sessionLoop]

/-- Invariant of the append loop: with enough fuel (`data.length - i` steps
    remain at most), the appended chunks are exactly the suffix `data[i:]`
    in order, the final cursor offset advances by the exact number of
    bytes appended, and the cursor offset recorded with each append equals
    the starting offset plus the bytes of all earlier appends. -/
theorem sessionLoop_spec (cs : Nat) (hcs : 0 < cs) (data : ByteSeq) :
    ∀ (fuel i ofs : Nat), data.length - i ≤ fuel →
      (((sessionLoop cs data fuel i ofs).1.map Prod.fst).flatten = data.drop i) ∧
      ((sessionLoop cs data fuel i ofs).2 = ofs + (data.drop i).length) ∧
      (∀ k, (hk : k < (sessionLoop cs data fuel i ofs).1.length) →
        ((sessionLoop cs data fuel i ofs).1.get ⟨k, hk⟩).2 =
          ofs + ((((sessionLoop cs data fuel i ofs).1.take k).map Prod.fst).flatten).length) := by
  intro fuel
  induction fuel with
  | zero =>
    intro i ofs hle
    rw [sessionLoop_zero]
    have hdrop : data.drop i = [] := by
      apply List.drop_eq_nil_of_le
      omega
    refine ⟨by simp [hdrop], by simp [hdrop], ?_⟩
    intro k hk
    simp at hk
  | succ n ih =>
    intro i ofs hle
    by_cases hi : i < data.length
    · rw [sessionLoop_succ, if_pos hi]
      obtain ⟨ihj, ihf, iho⟩ :=
        ih (i + cs) (ofs + ((data.drop i).take cs).length) (by omega)
      have hchunklen : ((data.drop i).take cs).length = min cs (data.length - i) := by
        simp
      have hsplit : (data.drop i).take cs ++ data.drop (i + cs) = data.drop i := by
        have h1 : data.drop (i + cs) = (data.drop i).drop cs := by
          rw [List.drop_drop]
        rw [h1]
        exact List.take_append_drop cs (data.drop i)
      refine ⟨?_, ?_, ?_⟩
      · simp only [List.map_cons, List.flatten_cons, ihj]
        exact hsplit
      · simp only [ihf]
        have hlen1 : (data.drop (i + cs)).length = data.length - (i + cs) := by simp
        have hlen2 : (data.drop i).length = data.length - i := by simp
        omega
      · intro k hk
        cases k with
        | zero => simp
        | succ k' =>
          simp only [List.length_cons] at hk
          have hk' : k' < (sessionLoop cs data n (i + cs)
              (ofs + ((data.drop i).take cs).length)).1.length := by omega
          have := iho k' hk'
          simp only [List.get_cons_succ, List.take_succ_cons, List.map_cons,
            List.flatten_cons, List.length_append, this]
          omega
    · rw [sessionLoop_succ, if_neg hi]
      have hdrop : data.drop i = [] := by
        apply List.drop_eq_nil_of_le
        omega
      refine ⟨by simp [hdrop], by simp [hdrop], ?_⟩
      intro k hk
      simp at hk

/-! ## Dropbox adapter (`DropboxFileHandler` + reader/writer/appender)

The Dropbox client is modelled by the `remote` association list (path to
stored bytes) plus an injectable per-path outcome for `files_upload`
(`uploadFaults`), which lets the theorems exercise the error-handling
branches of `_upload_regular`.  `chunkTraces` is an observability field
recording each chunked upload session issued. -/

/-- Outcome of a `files_upload` client call when it does not succeed:
    an `ApiError` whose path lookup is or is not `not_found`, or a
    `requests` `ConnectionError` whose text does or does not contain
    `The write operation timed out`. -/
inductive UploadFault where
  | apiNotFound
  | apiOther
  | connTimeout
  | connOther
  deriving DecidableEq, Repr

/-- State of one `DropboxFileHandler` instance (with its writer's
    `large_file_limit`) plus the remote store it talks to. -/
structure DbxState where
  useCache : Bool
  cache : List (String × Content)
  remote : List (String × ByteSeq)
  numCalls : Nat
  largeFileLimit : Int
  uploadFaults : List (String × UploadFault)
  chunkTraces : List ChunkedUpload
  deriving DecidableEq, Repr

/-- A fresh handler over an empty remote store
    (`__init__` with the given `use_cache`). -/
def dbxInit (uc : Bool) : DbxState :=
  { useCache := uc, cache := [], remote := [], numCalls := 0,
    largeFileLimit := initialLargeFileLimit, uploadFaults := [], chunkTraces := [] }

/-- `DropboxFileWriter._upload_in_chunks`: runs the chunked session
    (recorded in `chunkTraces`), stores the payload bytes at `path` and
    counts one call (the source increments `num_calls` once, after
    `files_upload_session_finish`).  An `ApiError` during the session
    would be logged and swallowed; the session client calls themselves are
    modelled as succeeding. -/
def dbx_upload_in_chunks (st : DbxState) (path : String) (data : ByteSeq) :
    DbxState × Except PyErr Unit :=
  ({ st with
      remote := setStore st.remote path data
      numCalls := st.numCalls + 1
      chunkTraces := st.chunkTraces ++ [mkChunkTrace dropboxChunkSize path data] },
    .ok ())

/-- `DropboxFileWriter.create_new_file`: upload with `WriteMode.add` after
    a not-found condition. -/
def dbx_create_new_file (st : DbxState) (path : String) (new_content : Content) :
    DbxState × Except PyErr Unit :=
  ({ st with
      remote := setStore st.remote path new_content.toBytes
      numCalls := st.numCalls + 1 },
    .ok ())

/-- `DropboxFileWriter._upload_regular`: single-request
    `files_upload(..., WriteMode.overwrite)` with its error handling:
    a not-found `ApiError` creates the file, any other `ApiError` is
    logged and re-raised, a timeout `ConnectionError` shrinks
    `large_file_limit` by the 5 MB margin and retries the same payload via
    `_upload_in_chunks`, and any other `ConnectionError` is logged and
    swallowed. -/
def dbx_upload_regular (st : DbxState) (path : String) (data : Content) :
    DbxState × Except PyErr Unit :=
  match lookupStore st.uploadFaults path with
  | none =>
    ({ st with
        remote := setStore st.remote path data.toBytes
        numCalls := st.numCalls + 1 },
      .ok ())
  | some .apiNotFound => dbx_create_new_file st path data
  | some .apiOther => (st, .error .apiError)
  | some .connTimeout =>
    let data_size := data.toBytes.length
    let st1 := { st with largeFileLimit := newSizeLimitAfterTimeout data_size }
    dbx_upload_in_chunks st1 path data.toBytes
  | some .connOther => (st, .ok ())

/-- `DropboxFileWriter._write_to_dropbox`: route by payload size against
    `large_file_limit`. -/
def dbx_write_to_dropbox (st : DbxState) (path : String) (data : Content) :
    DbxState × Except PyErr Unit :=
  if (data.toBytes.length : Int) > st.largeFileLimit then
    dbx_upload_in_chunks st path data.toBytes
  else
    dbx_upload_regular st path data

/-- `DropboxFileWriter._write_to_cache`. -/
def dbx_write_to_cache (st : DbxState) (path : String) (data : Content) :
    DbxState × Except PyErr Unit :=
  ({ st with cache := setStore st.cache path data }, .ok ())

/-- `DropboxFileReader.read_from_dropbox`: `files_download`, count the
    call, cache the raw `response.content` when caching is enabled, then
    return bytes in a binary mode and the UTF-8 decoding otherwise.
    A not-found `ApiError` is converted to `FileNotFoundError`; a
    `UnicodeDecodeError` re-raises. -/
def dbx_read_from_dropbox (st : DbxState) (path : String) (mode : Mode) :
    DbxState × Except PyErr Content :=
  match lookupStore st.remote path with
  | none => (st, .error .fileNotFound)
  | some content =>
    let st1 := { st with numCalls := st.numCalls + 1 }
    let st2 :=
      if st1.useCache then { st1 with cache := setStore st1.cache path (.bytes content) }
      else st1
    if mode.hasB then (st2, .ok (.bytes content))
    else
      match utf8Decode content with
      | some s => (st2, .ok (.text s))
      | none => (st2, .error .decodeErr)

/-- `DropboxFileReader._get_file`: cache hit returns the cached value
    unchanged (the requested mode is not consulted); a miss falls through
    to `read_from_dropbox`. -/
def dbx_get_file (st : DbxState) (path : String) (mode : Mode) :
    DbxState × Except PyErr Content :=
  match lookupStore st.cache path with
  | some c => (st, .ok c)
  | none => dbx_read_from_dropbox st path mode

/-- `DropboxFileReader.read_from_cache`. -/
def dbx_read_from_cache (st : DbxState) (path : String) (mode : Mode) :
    DbxState × Except PyErr Content :=
  if st.useCache then dbx_get_file st path mode
  else (st, .error .valueErr)

/-- `DropboxFileReader.read` (= `DropboxFileHandler.read`). -/
def dbx_read (st : DbxState) (path : String) (mode : Mode) :
    DbxState × Except PyErr Content :=
  if st.useCache then dbx_read_from_cache st path mode
  else dbx_read_from_dropbox st path mode

/-- `DropboxFileAppender._coherent_types`: coerce the new content to the
    existing content's type.  `bytes.decode` failure raises
    `UnicodeDecodeError` (a `ValueError`). -/
def dbx_coherent_types (new_content existing_content : Content) :
    Except PyErr Content :=
  match existing_content, new_content with
  | .text _, .bytes b =>
    match utf8Decode b with
    | some s => .ok (.text s)
    | none => .error .valueErr
  | .bytes _, .text s => .ok (.bytes (utf8Encode s))
  | _, _ => .ok new_content

/-- Python `existing + new` on two cache values: concatenation when the
    types agree, `TypeError` otherwise. -/
def contentConcat (a b : Content) : Except PyErr Content :=
  match a, b with
  | .text s, .text t => .ok (.text (s ++ t))
  | .bytes s, .bytes t => .ok (.bytes (s ++ t))
  | _, _ => .error .typeErr

/-- Body of `DropboxFileWriter.write` after the `"a" in mode` branch:
    the create-if-absent check for `"x"`, then cache-or-remote dispatch.
    (Split out so the appender's trailing `writer.write(path, cache[path])`
    call, which always uses the default mode `"w"`, can share it without
    mutual recursion.) -/
def dbx_write_no_append (st : DbxState) (path : String) (data : Content)
    (mode : Mode) : DbxState × Except PyErr Unit :=
  if mode.hasX then
    match lookupStore st.cache path, st.useCache with
    | some _, true => (st, .error .fileExists)
    | _, _ =>
      match lookupStore st.remote path with
      | some _ => ({ st with numCalls := st.numCalls + 1 }, .error .fileExists)
      | none =>
        if st.useCache then dbx_write_to_cache st path data
        else dbx_write_to_dropbox st path data
  else if st.useCache then dbx_write_to_cache st path data
  else dbx_write_to_dropbox st path data

/-- `DropboxFileAppender._append_to_cache`.  The source's
    `except ApiError` branch (meant to create a missing file from the new
    content) is unreachable: `read_from_dropbox` converts the not-found
    `ApiError` into `FileNotFoundError`, which this method does not catch,
    so read errors propagate. -/
def dbx_append_to_cache (st : DbxState) (path : String) (new_content : Content)
    (mode : Mode) : DbxState × Except PyErr Unit :=
  match dbx_read_from_cache st path mode with
  | (st1, .error e) => (st1, .error e)
  | (st1, .ok existing_content) =>
    match dbx_coherent_types new_content existing_content with
    | .error e => (st1, .error e)
    | .ok new1 =>
      match contentConcat existing_content new1 with
      | .error e => (st1, .error e)
      | .ok updated_content =>
        let st2 := { st1 with cache := setStore st1.cache path updated_content }
        dbx_write_no_append st2 path updated_content .w

/-- `DropboxFileAppender._append_to_dropbox` (with
    `_combine_content_to_bytes`): read the existing remote content in the
    append's mode, encode both sides to bytes, concatenate and upload with
    overwrite; `FileNotFoundError` creates the file from the new content
    alone, and any other exception (including a decode error) is logged
    and swallowed. -/
def dbx_append_to_dropbox (st : DbxState) (path : String) (new_content : Content)
    (mode : Mode) : DbxState × Except PyErr Unit :=
  match dbx_read_from_dropbox st path mode with
  | (st1, .error .fileNotFound) => dbx_create_new_file st1 path new_content
  | (st1, .error _) => (st1, .ok ())
  | (st1, .ok existing_content) =>
    let updated_content := existing_content.toBytes ++ new_content.toBytes
    match lookupStore st1.uploadFaults path with
    | some .apiNotFound => dbx_create_new_file st1 path new_content
    | some .apiOther => (st1, .error .apiError)
    | some _ => (st1, .ok ())
    | none =>
      ({ st1 with
          remote := setStore st1.remote path updated_content
          numCalls := st1.numCalls + 1 },
        .ok ())

/-- `DropboxFileAppender.append`. -/
def dbx_append (st : DbxState) (path : String) (new_content : Content)
    (mode : Mode) : DbxState × Except PyErr Unit :=
  if st.useCache then dbx_append_to_cache st path new_content mode
  else dbx_append_to_dropbox st path new_content mode

/-- `DropboxFileWriter.write` (= `DropboxFileHandler.write`). -/
def dbx_write (st : DbxState) (path : String) (data : Content) (mode : Mode) :
    DbxState × Except PyErr Unit :=
  if mode.hasA then dbx_append st path data mode
  else dbx_write_no_append st path data mode

/-- `DropboxFileHandler.delete`: `files_delete_v2` with every `ApiError`
    (not-found or otherwise, injected via `fault`) caught and logged, never
    re-raised. -/
def dbx_delete (st : DbxState) (path : String) (fault : Option Bool) :
    DbxState × Except PyErr Unit :=
  match fault with
  | some _ => (st, .ok ())
  | none =>
    match lookupStore st.remote path with
    | none => (st, .ok ())
    | some _ =>
      ({ st with remote := delStore st.remote path, numCalls := st.numCalls + 1 },
        .ok ())

/-- The mode `clear_cache_and_write_to_dropbox` picks per cache entry:
    `"b"` for bytes, `"w"` for text. -/
def dbxFlushMode (d : Content) : Mode :=
  match d with
  | .bytes _ => .b
  | .text _ => .w

/-- The write loop of `clear_cache_and_write_to_dropbox` over the cache
    snapshot; an exception escaping a write aborts the loop and
    propagates. -/
def dbx_flush_writes : DbxState → List (String × Content) →
    DbxState × Except PyErr Unit
  | st, [] => (st, .ok ())
  | st, (path, data) :: rest =>
    match dbx_write st path data (dbxFlushMode data) with
    | (st1, .ok _) => dbx_flush_writes st1 rest
    | (st1, .error e) => (st1, .error e)

/-- `DropboxFileHandler.clear_cache_and_write_to_dropbox`: a no-op if
    caching is off; otherwise disable caching, write every cached entry to
    Dropbox, and only after the whole loop clear the cache and re-enable
    caching.  An exception escaping a write leaves caching disabled and
    the cache uncleared. -/
def clear_cache_and_write_to_dropbox (st : DbxState) :
    DbxState × Except PyErr Unit :=
  if st.useCache = false then (st, .ok ())
  else
    let st1 := { st with useCache := false }
    match dbx_flush_writes st1 st1.cache with
    | (st2, .ok _) => ({ st2 with cache := [], useCache := true }, .ok ())
    | (st2, .error e) => (st2, .error e)

/-- `DropboxFileHandler.cleanup`. -/
def dbx_cleanup (st : DbxState) : DbxState × Except PyErr Unit :=
  clear_cache_and_write_to_dropbox st

/-! ## S3 adapter (`S3FileHandler`)

`putFaults` injects a `ClientError` outcome for `put_object` on a given
path (used by the flush error handling). -/

/-- State of one `S3FileHandler` instance plus its bucket. -/
structure S3State where
  useCache : Bool
  cache : List (String × Content)
  remote : List (String × ByteSeq)
  numCalls : Nat
  putFaults : List String
  deriving DecidableEq, Repr

/-- A fresh handler over an empty bucket
    (`__init__` with the given `use_cache`; the source default is `True`). -/
def s3Init (uc : Bool) : S3State :=
  { useCache := uc, cache := [], remote := [], numCalls := 0, putFaults := [] }

/-- `S3FileHandler.read`: cache hit returns the cached value unchanged;
    otherwise `get_object`, count the call, and return
    `response["Body"].read().decode("utf-8")` — the `mode` parameter is
    accepted but never consulted, so the remote path always decodes to
    text.  A `ClientError` becomes `FileNotFoundError`; a decode error
    propagates. -/
def s3_read (st : S3State) (path : String) (mode : Mode) :
    S3State × Except PyErr Content :=
  match (if st.useCache then lookupStore st.cache path else none) with
  | some c => (st, .ok c)
  | none =>
    match lookupStore st.remote path with
    | none => (st, .error .fileNotFound)
    | some b =>
      let st1 := { st with numCalls := st.numCalls + 1 }
      match utf8Decode b with
      | some s => (st1, .ok (.text s))
      | none => (st1, .error .decodeErr)

/-- The cache-or-`put_object` body of `S3FileHandler.write` (after the
    type checks and the `mode == "a"` branch): caching stores the data
    as given; otherwise `put_object` uploads (boto3 encodes `str` bodies
    as UTF-8) and a `ClientError` is logged and swallowed. -/
def s3_cache_or_put (st : S3State) (path : String) (data : Content) :
    S3State × Except PyErr Unit :=
  if st.useCache then
    ({ st with cache := setStore st.cache path data }, .ok ())
  else
    if st.putFaults.contains path then (st, .ok ())
    else
      ({ st with
          remote := setStore st.remote path data.toBytes
          numCalls := st.numCalls + 1 },
        .ok ())

/-- `S3FileHandler.write` specialized to its default mode `"w"`, as invoked
    from `append_to_s3_file` (`self.write(object_key, self.cache[object_key])`):
    the type checks run with the binary flag off, so bytes data raises
    `ValueError`. -/
def s3_write_default_mode (st : S3State) (path : String) (data : Content) :
    S3State × Except PyErr Unit :=
  if data.isBytes then (st, .error .valueErr)
  else s3_cache_or_put st path data

/-- `S3FileHandler._check_types_valid`: concatenate same-typed contents,
    raise `ValueError` on mismatched types. -/
def s3_check_types_valid (new_content existing_content : Content) :
    Except PyErr Content :=
  match existing_content, new_content with
  | .bytes e, .bytes n => .ok (.bytes (e ++ n))
  | .text e, .text n => .ok (.text (e ++ n))
  | _, _ => .error .valueErr

/-- `S3FileHandler.append_to_s3_file`.  With caching: fetch existing
    content from cache or via `self.read`, combine (a `FileNotFoundError`
    starts from the new content alone), store in the cache, then call
    `self.write` with the default `"w"` mode.  Without caching:
    `get_object` (a `NoSuchKey` error yields the empty string, any other
    read outcome propagates), then Python `existing + new` — the decoded
    existing content is text, so bytes new content raises `TypeError` —
    and `put_object` of the UTF-8 encoding. -/
def s3_append_to_s3_file (st : S3State) (path : String) (new_content : Content) :
    S3State × Except PyErr Unit :=
  if st.useCache then
    match
      (match lookupStore st.cache path with
       | some c => (st, Except.ok c)
       | none => s3_read st path .r) with
    | (st1, .ok existing_content) =>
      match s3_check_types_valid new_content existing_content with
      | .error e => (st1, .error e)
      | .ok updated_content =>
        let st2 := { st1 with cache := setStore st1.cache path updated_content }
        s3_write_default_mode st2 path updated_content
    | (st1, .error .fileNotFound) =>
      let st2 := { st1 with cache := setStore st1.cache path new_content }
      s3_write_default_mode st2 path new_content
    | (st1, .error e) => (st1, .error e)
  else
    match
      (match lookupStore st.remote path with
       | none => (st, Except.ok (Content.text []))
       | some b =>
         let st1 := { st with numCalls := st.numCalls + 1 }
         match utf8Decode b with
         | some s => (st1, Except.ok (Content.text s))
         | none => (st1, Except.error PyErr.decodeErr)) with
    | (st1, .error e) => (st1, .error e)
    | (st1, .ok existing_content) =>
      match existing_content, new_content with
      | .text e, .text n =>
        ({ st1 with
            remote := setStore st1.remote path (utf8Encode (e ++ n))
            numCalls := st1.numCalls + 1 },
          .ok ())
      | _, _ => (st1, .error .typeErr)

/-- `S3FileHandler.write`: the two type checks, then the `mode == "a"`
    dispatch to the append engine (note: the comparison is with the exact
    string `"a"`, so `"ab"` falls through to a plain overwrite), then
    cache-or-put. -/
def s3_write (st : S3State) (path : String) (data : Content) (mode : Mode) :
    S3State × Except PyErr Unit :=
  if mode.hasB ∧ data.isText then (st, .error .valueErr)
  else if ¬ mode.hasB ∧ data.isBytes then (st, .error .valueErr)
  else if mode = .a then s3_append_to_s3_file st path data
  else s3_cache_or_put st path data

/-- `S3FileHandler.delete`: `delete_object` succeeds on a missing key
    (S3 semantics), and any `ClientError` (injected via `fault`) is logged
    and swallowed, never re-raised. -/
def s3_delete (st : S3State) (path : String) (fault : Option Unit) :
    S3State × Except PyErr Unit :=
  match fault with
  | some _ => (st, .ok ())
  | none =>
    match lookupStore st.remote path with
    | none => ({ st with numCalls := st.numCalls + 1 }, .ok ())
    | some _ =>
      ({ st with remote := delStore st.remote path, numCalls := st.numCalls + 1 },
        .ok ())

/-- The per-entry loop of `S3FileHandler.flush_cache`: encode text to
    bytes, `put_object`, count the call; a `ClientError` on one entry is
    logged and the loop continues. -/
def s3_flush_writes : S3State → List (String × Content) → S3State
  | st, [] => st
  | st, (path, data) :: rest =>
    if st.putFaults.contains path then s3_flush_writes st rest
    else
      s3_flush_writes
        { st with
            remote := setStore st.remote path data.toBytes
            numCalls := st.numCalls + 1 }
        rest

/-- `S3FileHandler.flush_cache`: write all cached entries to S3 (the loop
    calls the client directly, bypassing `self.write` and the cache), then
    clear the cache.  The `use_cache` flag is never touched. -/
def s3_flush_cache (st : S3State) : S3State × Except PyErr Unit :=
  ({ s3_flush_writes st st.cache with cache := [] }, .ok ())

/-- `S3FileHandler.cleanup`. -/
def s3_cleanup (st : S3State) : S3State × Except PyErr Unit :=
  s3_flush_cache st

/-! ## Local backend (`LocalFileHandler`)

The local filesystem is an association list from path to stored bytes.
Text-mode file objects encode on write and decode on read (UTF-8). -/

/-- State of the local filesystem. -/
structure LocalState where
  fs : List (String × ByteSeq)
  deriving DecidableEq, Repr

/-- `LocalFileHandler.read`: `open(path, mode)` + `file.read()`. -/
def local_read (st : LocalState) (path : String) (mode : Mode) :
    LocalState × Except PyErr Content :=
  match lookupStore st.fs path with
  | none => (st, .error .fileNotFound)
  | some b =>
    if mode.hasB then (st, .ok (.bytes b))
    else
      match utf8Decode b with
      | some s => (st, .ok (.text s))
      | none => (st, .error .decodeErr)

/-- Does the binary flag of `mode` disagree with the runtime type of
    `data` (so that `file.write(data)` raises `TypeError`)? -/
def modeMismatch (data : Content) (mode : Mode) : Bool :=
  (mode.hasB && data.isText) || (!mode.hasB && data.isBytes)

/-- `LocalFileHandler.write`: `open(path, mode)` then `file.write(data)`.
    `open` itself truncates in `"w"` modes and creates the file in `"w"`,
    `"a"` and `"x"` modes; a type-mismatched `file.write` raises
    `TypeError` after those effects. -/
def local_write (st : LocalState) (path : String) (data : Content)
    (mode : Mode) : LocalState × Except PyErr Unit :=
  if mode.hasX then
    match lookupStore st.fs path with
    | some _ => (st, .error .fileExists)
    | none =>
      if modeMismatch data mode then
        ({ fs := setStore st.fs path [] }, .error .typeErr)
      else ({ fs := setStore st.fs path data.toBytes }, .ok ())
  else if mode.hasA then
    let existing := (lookupStore st.fs path).getD []
    if modeMismatch data mode then
      ({ fs := setStore st.fs path existing }, .error .typeErr)
    else ({ fs := setStore st.fs path (existing ++ data.toBytes) }, .ok ())
  else
    if modeMismatch data mode then
      ({ fs := setStore st.fs path [] }, .error .typeErr)
    else ({ fs := setStore st.fs path data.toBytes }, .ok ())

/-- `LocalFileHandler.delete`: `os.remove` with `FileNotFoundError` caught
    and printed; any other `OSError` (injected via `fault`) propagates. -/
def local_delete (st : LocalState) (path : String) (fault : Option Unit) :
    LocalState × Except PyErr Unit :=
  match fault with
  | some _ => (st, .error .osError)
  | none =>
    match lookupStore st.fs path with
    | none => (st, .ok ())
    | some _ => ({ fs := delStore st.fs path }, .ok ())

/-! ## Helper lemmas about the write paths -/

/-- The write mode matching a content's type (`"w"` / `"wb"`). -/
def writeModeFor : Content → Mode
  | .text _ => .w
  | .bytes _ => .wb

/-- The read mode matching a content's type (`"r"` / `"rb"`). -/
def readModeFor : Content → Mode
  | .text _ => .r
  | .bytes _ => .rb

theorem dbx_write_to_dropbox_spec (st : DbxState) (path : String) (data : Content)
    (hf : lookupStore st.uploadFaults path = none) :
    (dbx_write_to_dropbox st path data).2 = .ok () ∧
    (dbx_write_to_dropbox st path data).1.remote = setStore st.remote path data.toBytes ∧
    (dbx_write_to_dropbox st path data).1.useCache = st.useCache ∧
    (dbx_write_to_dropbox st path data).1.cache = st.cache ∧
    (dbx_write_to_dropbox st path data).1.uploadFaults = st.uploadFaults ∧
    (dbx_write_to_dropbox st path data).1.largeFileLimit = st.largeFileLimit := by
  unfold dbx_write_to_dropbox
  by_cases hsz : (data.toBytes.length : Int) > st.largeFileLimit
  · simp [hsz, dbx_upload_in_chunks]
  · simp [hsz, dbx_upload_regular, hf]

theorem dbx_write_plain (st : DbxState) (path : String) (data : Content)
    (mode : Mode) (ha : mode.hasA = false) (hx : mode.hasX = false) :
    dbx_write st path data mode =
      if st.useCache then ({ st with cache := setStore st.cache path data }, .ok ())
      else dbx_write_to_dropbox st path data := by
  simp [dbx_write, dbx_write_no_append, ha, hx, dbx_write_to_cache]

theorem dbxFlushMode_flags (d : Content) :
    (dbxFlushMode d).hasA = false ∧ (dbxFlushMode d).hasX = false := by
  cases d <;> simp [dbxFlushMode, Mode.hasA, Mode.hasX]

theorem s3_write_plain (st : S3State) (path : String) (data : Content) :
    s3_write st path data (writeModeFor data) = s3_cache_or_put st path data := by
  cases data <;>
    simp [s3_write, writeModeFor, Mode.hasB, Content.isText, Content.isBytes]

/-! ## Claim C1 -/

/-- Claim C1 (counterexample): the round-trip law fails on the S3 backend
    without caching for binary content — `S3FileHandler.read` ignores the
    binary flag and always decodes the object body, so
    `write("p", b"\x00", "wb")` followed by `read("p", "rb")` returns the
    decoded text, not the bytes that were written. -/
theorem C1_roundtrip_counterexample :
    (s3_write (s3Init false) "p" (.bytes [0]) .wb).2 = .ok () ∧
    (s3_read (s3_write (s3Init false) "p" (.bytes [0]) .wb).1 "p" .rb).2 =
      .ok (.text [0]) ∧
    Content.text [0] ≠ Content.bytes [0] :=
  ⟨rfl, rfl, by decide⟩

/-- Claim C1 (amended): `write(p, c, Overwrite)` then `read(p)` returns `c`
    (under the declared text/binary mode) on the local backend, on the
    Dropbox backend with or without caching, and on the S3 backend with
    caching; on the S3 backend without caching the read ignores the mode
    flag and always returns the UTF-8 decoding of the stored bytes, so
    text content still round-trips but byte content is returned as decoded
    text. -/
theorem C1_roundtrip_amended :
    (∀ (st : LocalState) (p : String) (s : List Nat), (∀ c ∈ s, c < 0x110000) →
      (local_write st p (.text s) .w).2 = .ok () ∧
      (local_read (local_write st p (.text s) .w).1 p .r).2 = .ok (.text s)) ∧
    (∀ (st : LocalState) (p : String) (b : ByteSeq),
      (local_write st p (.bytes b) .wb).2 = .ok () ∧
      (local_read (local_write st p (.bytes b) .wb).1 p .rb).2 = .ok (.bytes b)) ∧
    (∀ (st : DbxState) (p : String) (c : Content), st.useCache = true →
      (dbx_write st p c (writeModeFor c)).2 = .ok () ∧
      (dbx_read (dbx_write st p c (writeModeFor c)).1 p (readModeFor c)).2 = .ok c) ∧
    (∀ (st : DbxState) (p : String) (s : List Nat), st.useCache = false →
      lookupStore st.uploadFaults p = none → (∀ c ∈ s, c < 0x110000) →
      (dbx_write st p (.text s) .w).2 = .ok () ∧
      (dbx_read (dbx_write st p (.text s) .w).1 p .r).2 = .ok (.text s)) ∧
    (∀ (st : DbxState) (p : String) (b : ByteSeq), st.useCache = false →
      lookupStore st.uploadFaults p = none →
      (dbx_write st p (.bytes b) .wb).2 = .ok () ∧
      (dbx_read (dbx_write st p (.bytes b) .wb).1 p .rb).2 = .ok (.bytes b)) ∧
    (∀ (st : S3State) (p : String) (c : Content), st.useCache = true →
      (s3_write st p c (writeModeFor c)).2 = .ok () ∧
      (s3_read (s3_write st p c (writeModeFor c)).1 p (readModeFor c)).2 = .ok c) ∧
    (∀ (st : S3State) (p : String) (s : List Nat), st.useCache = false →
      st.putFaults.contains p = false → (∀ c ∈ s, c < 0x110000) →
      (s3_write st p (.text s) .w).2 = .ok () ∧
      (s3_read (s3_write st p (.text s) .w).1 p .r).2 = .ok (.text s)) ∧
    (∀ (st : S3State) (p : String) (b : ByteSeq) (s : List Nat), st.useCache = false →
      st.putFaults.contains p = false → utf8Decode b = some s →
      (s3_write st p (.bytes b) .wb).2 = .ok () ∧
      (s3_read (s3_write st p (.bytes b) .wb).1 p .rb).2 = .ok (.text s)) := by
  refine ⟨?_, ?_, ?_, ?_, ?_, ?_, ?_, ?_⟩
  · intro st p s hv
    simp [local_write, local_read, Mode.hasX, Mode.hasA, Mode.hasB, modeMismatch,
      Content.isText, Content.isBytes, Content.toBytes, lookupStore_setStore_self,
      utf8Decode_utf8Encode s hv]
  · intro st p b
    simp [local_write, local_read, Mode.hasX, Mode.hasA, Mode.hasB, modeMismatch,
      Content.isText, Content.isBytes, Content.toBytes, lookupStore_setStore_self]
  · intro st p c hu
    rw [dbx_write_plain st p c _ (by cases c <;> rfl) (by cases c <;> rfl)]
    simp [hu, dbx_read, dbx_read_from_cache, dbx_get_file, lookupStore_setStore_self]
  · intro st p s hu hf hv
    rw [dbx_write_plain st p (.text s) .w rfl rfl]
    obtain ⟨hok, hrem, huse, _hcache, _hfl, _⟩ :=
      dbx_write_to_dropbox_spec st p (.text s) hf
    simp only [hu, if_false, Bool.false_eq_true]
    refine ⟨hok, ?_⟩
    simp [dbx_read, huse, hu, dbx_read_from_dropbox, hrem, lookupStore_setStore_self,
      Content.toBytes, Mode.hasB, utf8Decode_utf8Encode s hv]
  · intro st p b hu hf
    rw [dbx_write_plain st p (.bytes b) .wb rfl rfl]
    obtain ⟨hok, hrem, huse, _hcache, _hfl, _⟩ :=
      dbx_write_to_dropbox_spec st p (.bytes b) hf
    simp only [hu, if_false, Bool.false_eq_true]
    refine ⟨hok, ?_⟩
    simp [dbx_read, huse, hu, dbx_read_from_dropbox, hrem, lookupStore_setStore_self,
      Content.toBytes, Mode.hasB]
  · intro st p c hu
    rw [s3_write_plain]
    simp [s3_cache_or_put, hu, s3_read, lookupStore_setStore_self]
  · intro st p s hu hf hv
    have hf2 : p ∉ st.putFaults := by simpa using hf
    simp [s3_write, Mode.hasB, Content.isText, Content.isBytes, s3_cache_or_put,
      hu, hf2, s3_read, lookupStore_setStore_self, Content.toBytes,
      utf8Decode_utf8Encode s hv]
  · intro st p b s hu hf hd
    have hf2 : p ∉ st.putFaults := by simpa using hf
    simp [s3_write, Mode.hasB, Content.isText, Content.isBytes, s3_cache_or_put,
      hu, hf2, s3_read, lookupStore_setStore_self, Content.toBytes, hd]

/-- Witness for the amended C1 at concrete inputs on each backend. -/
theorem C1_roundtrip_witness :
    (local_read (local_write ⟨[]⟩ "p" (.text [104, 105]) .w).1 "p" .r).2 =
      .ok (.text [104, 105]) ∧
    (dbx_read (dbx_write (dbxInit true) "p" (.bytes [0, 255]) .wb).1 "p" .rb).2 =
      .ok (.bytes [0, 255]) ∧
    (dbx_read (dbx_write (dbxInit false) "p" (.text [104]) .w).1 "p" .r).2 =
      .ok (.text [104]) ∧
    (s3_read (s3_write (s3Init true) "p" (.bytes [0, 255]) .wb).1 "p" .rb).2 =
      .ok (.bytes [0, 255]) ∧
    (s3_read (s3_write (s3Init false) "p" (.text [104]) .w).1 "p" .r).2 =
      .ok (.text [104]) :=
  ⟨(C1_roundtrip_amended.1 ⟨[]⟩ "p" [104, 105] (by decide)).2,
   (C1_roundtrip_amended.2.2.1 (dbxInit true) "p" (.bytes [0, 255]) rfl).2,
   (C1_roundtrip_amended.2.2.2.1 (dbxInit false) "p" [104] rfl rfl (by decide)).2,
   (C1_roundtrip_amended.2.2.2.2.2.1 (s3Init true) "p" (.bytes [0, 255]) rfl).2,
   (C1_roundtrip_amended.2.2.2.2.2.2.1 (s3Init false) "p" [104] rfl rfl (by decide)).2⟩

/-! ## Claim C2 -/

/-- Claim C2 (counterexample): the append law fails on the S3 backend for
    byte content.  `S3FileHandler.write` only routes to the append engine
    when the mode is exactly the string `"a"`, so a binary append
    (`mode="ab"`) falls through to a plain overwrite: after
    `write(p, Bytes [1], "wb"); write(p, Bytes [2], "ab")` a read returns
    `[2]`, while `write(p, Bytes [1] ++ Bytes [2], "wb")` then read returns
    `[1, 2]`. -/
theorem C2_append_law_counterexample :
    (s3_write (s3_write (s3Init true) "p" (.bytes [1]) .wb).1 "p"
      (.bytes [2]) .ab).2 = .ok () ∧
    (s3_read (s3_write (s3_write (s3Init true) "p" (.bytes [1]) .wb).1 "p"
      (.bytes [2]) .ab).1 "p" .rb).2 = .ok (.bytes [2]) ∧
    (s3_read (s3_write (s3Init true) "p" (.bytes ([1] ++ [2])) .wb).1 "p" .rb).2 =
      .ok (.bytes [1, 2]) ∧
    Content.bytes [2] ≠ Content.bytes [1, 2] :=
  ⟨rfl, rfl, rfl, by decide⟩

/-- Claim C2 (amended): the append law
    `write(p, a, Overwrite); write(p, b, Append); read(p)` equals
    `write(p, a+b, Overwrite); read(p)` for same-typed contents on the
    local backend (text and bytes), on the Dropbox backend with and
    without caching (text and bytes), and on the S3 backend for text
    appended with the exact mode `"a"`; on S3 byte content cannot be
    appended at all (mode `"ab"` overwrites, and mode `"a"` with bytes
    fails the type check). -/
theorem C2_append_law_amended :
    (∀ (st : LocalState) (p : String) (a b : List Nat),
      (∀ c ∈ a, c < 0x110000) → (∀ c ∈ b, c < 0x110000) →
      (local_read (local_write (local_write st p (.text a) .w).1 p
        (.text b) .a).1 p .r).2 = .ok (.text (a ++ b)) ∧
      (local_read (local_write st p (.text (a ++ b)) .w).1 p .r).2 =
        .ok (.text (a ++ b))) ∧
    (∀ (st : LocalState) (p : String) (a b : ByteSeq),
      (local_read (local_write (local_write st p (.bytes a) .wb).1 p
        (.bytes b) .ab).1 p .rb).2 = .ok (.bytes (a ++ b)) ∧
      (local_read (local_write st p (.bytes (a ++ b)) .wb).1 p .rb).2 =
        .ok (.bytes (a ++ b))) ∧
    (∀ (st : DbxState) (p : String) (a b : List Nat), st.useCache = true →
      (dbx_read (dbx_write (dbx_write st p (.text a) .w).1 p
        (.text b) .a).1 p .r).2 = .ok (.text (a ++ b)) ∧
      (dbx_read (dbx_write st p (.text (a ++ b)) .w).1 p .r).2 =
        .ok (.text (a ++ b))) ∧
    (∀ (st : DbxState) (p : String) (a b : ByteSeq), st.useCache = true →
      (dbx_read (dbx_write (dbx_write st p (.bytes a) .wb).1 p
        (.bytes b) .ab).1 p .rb).2 = .ok (.bytes (a ++ b)) ∧
      (dbx_read (dbx_write st p (.bytes (a ++ b)) .wb).1 p .rb).2 =
        .ok (.bytes (a ++ b))) ∧
    (∀ (st : DbxState) (p : String) (a b : List Nat), st.useCache = false →
      lookupStore st.uploadFaults p = none →
      (∀ c ∈ a, c < 0x110000) → (∀ c ∈ b, c < 0x110000) →
      (dbx_read (dbx_write (dbx_write st p (.text a) .w).1 p
        (.text b) .a).1 p .r).2 = .ok (.text (a ++ b)) ∧
      (dbx_read (dbx_write st p (.text (a ++ b)) .w).1 p .r).2 =
        .ok (.text (a ++ b))) ∧
    (∀ (st : DbxState) (p : String) (a b : ByteSeq), st.useCache = false →
      lookupStore st.uploadFaults p = none →
      (dbx_read (dbx_write (dbx_write st p (.bytes a) .wb).1 p
        (.bytes b) .ab).1 p .rb).2 = .ok (.bytes (a ++ b)) ∧
      (dbx_read (dbx_write st p (.bytes (a ++ b)) .wb).1 p .rb).2 =
        .ok (.bytes (a ++ b))) ∧
    (∀ (st : S3State) (p : String) (a b : List Nat), st.useCache = true →
      (s3_read (s3_write (s3_write st p (.text a) .w).1 p
        (.text b) .a).1 p .r).2 = .ok (.text (a ++ b)) ∧
      (s3_read (s3_write st p (.text (a ++ b)) .w).1 p .r).2 =
        .ok (.text (a ++ b))) ∧
    (∀ (st : S3State) (p : String) (a b : List Nat), st.useCache = false →
      st.putFaults.contains p = false →
      (∀ c ∈ a, c < 0x110000) → (∀ c ∈ b, c < 0x110000) →
      (s3_read (s3_write (s3_write st p (.text a) .w).1 p
        (.text b) .a).1 p .r).2 = .ok (.text (a ++ b)) ∧
      (s3_read (s3_write st p (.text (a ++ b)) .w).1 p .r).2 =
        .ok (.text (a ++ b))) := by
  refine ⟨?_, ?_, ?_, ?_, ?_, ?_, ?_, ?_⟩
  · intro st p a b hva hvb
    have hvab : ∀ c ∈ a ++ b, c < 0x110000 := by
      intro c hc
      rcases List.mem_append.mp hc with h | h
      · exact hva c h
      · exact hvb c h
    have hdec : utf8Decode (utf8Encode a ++ utf8Encode b) = some (a ++ b) := by
      rw [← utf8Encode_append]
      exact utf8Decode_utf8Encode _ hvab
    simp [local_write, local_read, Mode.hasX, Mode.hasA, Mode.hasB, modeMismatch,
      Content.isText, Content.isBytes, Content.toBytes, lookupStore_setStore_self,
      hdec, utf8Decode_utf8Encode _ hvab]
  · intro st p a b
    simp [local_write, local_read, Mode.hasX, Mode.hasA, Mode.hasB, modeMismatch,
      Content.isText, Content.isBytes, Content.toBytes, lookupStore_setStore_self]
  · intro st p a b hu
    rw [dbx_write_plain st p (.text (a ++ b)) .w rfl rfl,
      dbx_write_plain st p (.text a) .w rfl rfl]
    simp only [hu, if_true]
    constructor
    · simp [dbx_write, Mode.hasA, dbx_append, hu, dbx_append_to_cache,
        dbx_read_from_cache, dbx_get_file, lookupStore_setStore_self,
        dbx_coherent_types, contentConcat, dbx_write_no_append, Mode.hasX,
        dbx_write_to_cache, dbx_read]
    · simp [dbx_read, hu, dbx_read_from_cache, dbx_get_file,
        lookupStore_setStore_self]
  · intro st p a b hu
    rw [dbx_write_plain st p (.bytes (a ++ b)) .wb rfl rfl,
      dbx_write_plain st p (.bytes a) .wb rfl rfl]
    simp only [hu, if_true]
    constructor
    · simp [dbx_write, Mode.hasA, dbx_append, hu, dbx_append_to_cache,
        dbx_read_from_cache, dbx_get_file, lookupStore_setStore_self,
        dbx_coherent_types, contentConcat, dbx_write_no_append, Mode.hasX,
        dbx_write_to_cache, dbx_read]
    · simp [dbx_read, hu, dbx_read_from_cache, dbx_get_file,
        lookupStore_setStore_self]
  · intro st p a b hu hf hva hvb
    have hvab : ∀ c ∈ a ++ b, c < 0x110000 := by
      intro c hc
      rcases List.mem_append.mp hc with h | h
      · exact hva c h
      · exact hvb c h
    rw [dbx_write_plain st p (.text (a ++ b)) .w rfl rfl,
      dbx_write_plain st p (.text a) .w rfl rfl]
    simp only [hu, if_false, Bool.false_eq_true]
    obtain ⟨hok1, hrem1, huse1, hcache1, hfl1, _⟩ :=
      dbx_write_to_dropbox_spec st p (.text a) hf
    obtain ⟨hok2, hrem2, huse2, hcache2, hfl2, _⟩ :=
      dbx_write_to_dropbox_spec st p (.text (a ++ b)) hf
    constructor
    · rw [show (dbx_write (dbx_write_to_dropbox st p (.text a)).1 p (.text b) .a) =
        dbx_append (dbx_write_to_dropbox st p (.text a)).1 p (.text b) .a from by
          simp [dbx_write, Mode.hasA]]
      have hdec : utf8Decode (utf8Encode a ++ utf8Encode b) = some (a ++ b) := by
        rw [← utf8Encode_append]
        exact utf8Decode_utf8Encode _ hvab
      simp [dbx_append, huse1, hu, dbx_append_to_dropbox, dbx_read_from_dropbox,
        hrem1, hfl1, hf, lookupStore_setStore_self, Content.toBytes, Mode.hasB,
        utf8Decode_utf8Encode a hva, dbx_read, hdec]
    · simp [dbx_read, huse2, hu, dbx_read_from_dropbox, hrem2,
        lookupStore_setStore_self, Content.toBytes, Mode.hasB,
        utf8Decode_utf8Encode _ hvab]
  · intro st p a b hu hf
    rw [dbx_write_plain st p (.bytes (a ++ b)) .wb rfl rfl,
      dbx_write_plain st p (.bytes a) .wb rfl rfl]
    simp only [hu, if_false, Bool.false_eq_true]
    obtain ⟨hok1, hrem1, huse1, hcache1, hfl1, _⟩ :=
      dbx_write_to_dropbox_spec st p (.bytes a) hf
    obtain ⟨hok2, hrem2, huse2, hcache2, hfl2, _⟩ :=
      dbx_write_to_dropbox_spec st p (.bytes (a ++ b)) hf
    constructor
    · rw [show (dbx_write (dbx_write_to_dropbox st p (.bytes a)).1 p (.bytes b) .ab) =
        dbx_append (dbx_write_to_dropbox st p (.bytes a)).1 p (.bytes b) .ab from by
          simp [dbx_write, Mode.hasA]]
      simp [dbx_append, huse1, hu, dbx_append_to_dropbox, dbx_read_from_dropbox,
        hrem1, hfl1, hf, lookupStore_setStore_self, Content.toBytes, Mode.hasB,
        dbx_read]
    · simp [dbx_read, huse2, hu, dbx_read_from_dropbox, hrem2,
        lookupStore_setStore_self, Content.toBytes, Mode.hasB]
  · intro st p a b hu
    constructor
    · simp [s3_write, Mode.hasB, Content.isText, Content.isBytes, s3_cache_or_put,
        hu, s3_append_to_s3_file, lookupStore_setStore_self, s3_check_types_valid,
        s3_write_default_mode, s3_read]
    · simp [s3_write, Mode.hasB, Content.isText, Content.isBytes, s3_cache_or_put,
        hu, s3_read, lookupStore_setStore_self]
  · intro st p a b hu hf hva hvb
    have hf2 : p ∉ st.putFaults := by simpa using hf
    have hvab : ∀ c ∈ a ++ b, c < 0x110000 := by
      intro c hc
      rcases List.mem_append.mp hc with h | h
      · exact hva c h
      · exact hvb c h
    constructor
    · simp [s3_write, Mode.hasB, Content.isText, Content.isBytes, s3_cache_or_put,
        hu, hf2, s3_append_to_s3_file, lookupStore_setStore_self,
        Content.toBytes, utf8Decode_utf8Encode a hva, s3_read,
        utf8Decode_utf8Encode _ hvab]
    · simp [s3_write, Mode.hasB, Content.isText, Content.isBytes, s3_cache_or_put,
        hu, hf2, s3_read, lookupStore_setStore_self, Content.toBytes,
        utf8Decode_utf8Encode _ hvab]

/-- Witness for the amended C2 at concrete inputs on each backend. -/
theorem C2_append_law_witness :
    (local_read (local_write (local_write ⟨[]⟩ "p" (.text [104]) .w).1 "p"
      (.text [105]) .a).1 "p" .r).2 = .ok (.text ([104] ++ [105])) ∧
    (dbx_read (dbx_write (dbx_write (dbxInit true) "p" (.bytes [1]) .wb).1 "p"
      (.bytes [2]) .ab).1 "p" .rb).2 = .ok (.bytes ([1] ++ [2])) ∧
    (dbx_read (dbx_write (dbx_write (dbxInit false) "p" (.text [104]) .w).1 "p"
      (.text [105]) .a).1 "p" .r).2 = .ok (.text ([104] ++ [105])) ∧
    (s3_read (s3_write (s3_write (s3Init true) "p" (.text [104]) .w).1 "p"
      (.text [105]) .a).1 "p" .r).2 = .ok (.text ([104] ++ [105])) :=
  ⟨(C2_append_law_amended.1 ⟨[]⟩ "p" [104] [105] (by decide) (by decide)).1,
   (C2_append_law_amended.2.2.2.1 (dbxInit true) "p" [1] [2] rfl).1,
   (C2_append_law_amended.2.2.2.2.1 (dbxInit false) "p" [104] [105] rfl rfl
     (by decide) (by decide)).1,
   (C2_append_law_amended.2.2.2.2.2.2.1 (s3Init true) "p" [104] [105] rfl).1⟩

/-! ## Claim C3 -/

theorem dbx_flush_writes_ok : ∀ (items : List (String × Content)) (st : DbxState),
    st.useCache = false → st.uploadFaults = [] →
    (dbx_flush_writes st items).2 = .ok () ∧
    (dbx_flush_writes st items).1.useCache = false ∧
    (dbx_flush_writes st items).1.cache = st.cache ∧
    (dbx_flush_writes st items).1.uploadFaults = [] := by
  intro items
  induction items with
  | nil =>
    intro st hu hf
    exact ⟨rfl, hu, rfl, hf⟩
  | cons hd tl ih =>
    intro st hu hf
    obtain ⟨p, d⟩ := hd
    obtain ⟨hfa, hfx⟩ := dbxFlushMode_flags d
    have hw := dbx_write_plain st p d (dbxFlushMode d) hfa hfx
    have hnone : lookupStore st.uploadFaults p = none := by
      rw [hf]
      rfl
    obtain ⟨hok, _hrem, huse, hcache, hfl, _⟩ := dbx_write_to_dropbox_spec st p d hnone
    rw [dbx_flush_writes]
    rw [hw]
    simp only [hu, if_false, Bool.false_eq_true]
    rcases hde : dbx_write_to_dropbox st p d with ⟨st1, r⟩
    rw [hde] at hok huse hcache hfl
    simp only at hok huse hcache hfl
    rw [hok]
    simp only
    have := ih st1 (by rw [huse, hu]) (by rw [hfl, hf])
    rw [hcache] at this
    exact this

theorem s3_flush_writes_fields : ∀ (items : List (String × Content)) (st : S3State),
    (s3_flush_writes st items).useCache = st.useCache ∧
    (s3_flush_writes st items).cache = st.cache := by
  intro items
  induction items with
  | nil => intro st; exact ⟨rfl, rfl⟩
  | cons hd tl ih =>
    intro st
    obtain ⟨p, d⟩ := hd
    rw [s3_flush_writes]
    by_cases hc : st.putFaults.contains p
    · simp only [hc, if_true]
      exact ih st
    · simp only [hc, if_false, Bool.false_eq_true]
      exact ih _

/-- Claim C3 (counterexample): caching is not re-enabled when the Dropbox
    flush fails.  With one cached entry whose upload raises a
    non-not-found `ApiError`, `clear_cache_and_write_to_dropbox` propagates
    the error, leaves `use_cache` at `False` and the cache unflushed —
    contradicting the claim that caching is re-enabled on completion
    whether the flush succeeds or fails. -/
theorem C3_flush_counterexample :
    (dbx_cleanup { dbxInit true with
        cache := [("p", .text [104])],
        uploadFaults := [("p", .apiOther)] }).2 = .error .apiError ∧
    (dbx_cleanup { dbxInit true with
        cache := [("p", .text [104])],
        uploadFaults := [("p", .apiOther)] }).1.useCache = false ∧
    (dbx_cleanup { dbxInit true with
        cache := [("p", .text [104])],
        uploadFaults := [("p", .apiOther)] }).1.cache = [("p", .text [104])] :=
  ⟨rfl, rfl, rfl⟩

/-- Claim C3 (amended): during a Dropbox flush caching is disabled, and
    when every upload succeeds the cache is cleared and caching re-enabled;
    but when an upload raises, the error propagates out of the flush
    leaving caching disabled and the cache unflushed.  The S3 flush never
    touches the caching flag (its uploads call the client directly,
    bypassing the cache), swallows per-item backend errors, and always
    clears the cache; so a `cleanup()` that returns without error leaves
    the cache empty on both adapters. -/
theorem C3_flush_amended :
    (∀ st : DbxState, st.useCache = true → st.uploadFaults = [] →
      (dbx_cleanup st).2 = .ok () ∧
      (dbx_cleanup st).1.cache = [] ∧
      (dbx_cleanup st).1.useCache = true) ∧
    (∀ (st : DbxState) (p : String) (d : Content) (rest : List (String × Content)),
      st.useCache = true → st.cache = (p, d) :: rest →
      lookupStore st.uploadFaults p = some .apiOther →
      (d.toBytes.length : Int) ≤ st.largeFileLimit →
      (dbx_cleanup st).2 = .error .apiError ∧
      (dbx_cleanup st).1.useCache = false ∧
      (dbx_cleanup st).1.cache = st.cache) ∧
    (∀ st : S3State,
      (s3_cleanup st).2 = .ok () ∧
      (s3_cleanup st).1.cache = [] ∧
      (s3_cleanup st).1.useCache = st.useCache) := by
  refine ⟨?_, ?_, ?_⟩
  · intro st hu hf
    unfold dbx_cleanup clear_cache_and_write_to_dropbox
    simp only [hu, if_false, Bool.true_eq_false]
    obtain ⟨hok, huse, _hcache, _hfl⟩ :=
      dbx_flush_writes_ok st.cache { st with useCache := false } rfl
        (by simpa using hf)
    rcases hde : dbx_flush_writes { st with useCache := false } st.cache with ⟨st2, r⟩
    rw [hde] at hok
    simp only at hok
    subst hok
    exact ⟨rfl, rfl, rfl⟩
  · intro st p d rest hu hcache hf hsz
    unfold dbx_cleanup clear_cache_and_write_to_dropbox
    simp only [hu, if_false, Bool.true_eq_false]
    have hcache1 : ({ st with useCache := false } : DbxState).cache = (p, d) :: rest := hcache
    rw [hcache1, dbx_flush_writes]
    obtain ⟨hfa, hfx⟩ := dbxFlushMode_flags d
    rw [dbx_write_plain _ p d (dbxFlushMode d) hfa hfx]
    simp only [if_false, Bool.false_eq_true]
    unfold dbx_write_to_dropbox
    have hnotgt : ¬ ((d.toBytes.length : Int) >
        ({ st with useCache := false } : DbxState).largeFileLimit) := by
      simp only
      omega
    rw [if_neg hnotgt]
    unfold dbx_upload_regular
    have hf1 : lookupStore ({ st with useCache := false } : DbxState).uploadFaults p =
        some .apiOther := hf
    rw [hf1]
    exact ⟨rfl, rfl, rfl⟩
  · intro st
    unfold s3_cleanup s3_flush_cache
    obtain ⟨huse, _⟩ := s3_flush_writes_fields st.cache st
    exact ⟨rfl, rfl, huse⟩

/-- Witness for the amended C3 at concrete states. -/
theorem C3_flush_witness :
    (dbx_cleanup { dbxInit true with cache := [("p", .text [104])] }).2 = .ok () ∧
    (dbx_cleanup { dbxInit true with cache := [("p", .text [104])] }).1.cache = [] ∧
    (dbx_cleanup { dbxInit true with cache := [("p", .text [104])] }).1.useCache = true ∧
    (dbx_cleanup { dbxInit true with
        cache := [("q", .bytes [7])],
        uploadFaults := [("q", .apiOther)] }).1.useCache = false ∧
    (s3_cleanup { s3Init true with cache := [("p", .text [104])] }).1.cache = [] :=
  ⟨(C3_flush_amended.1 { dbxInit true with cache := [("p", .text [104])] } rfl rfl).1,
   (C3_flush_amended.1 { dbxInit true with cache := [("p", .text [104])] } rfl rfl).2.1,
   (C3_flush_amended.1 { dbxInit true with cache := [("p", .text [104])] } rfl rfl).2.2,
   (C3_flush_amended.2.1 { dbxInit true with
      cache := [("q", .bytes [7])], uploadFaults := [("q", .apiOther)] }
      "q" (.bytes [7]) [] rfl rfl rfl (by decide)).2.1,
   (C3_flush_amended.2.2 { s3Init true with cache := [("p", .text [104])] }).2.1⟩

/-! ## Claim C4 -/

/-- Claim C4: whenever the chunked upload path runs on a payload, the
    session trace it issues partitions the payload into sequential,
    in-order chunks with no byte offset skipped or duplicated — the first
    chunk is the fixed-size prefix `data[:chunk_size]`, the cursor offset
    passed with each subsequent append equals the number of payload bytes
    transmitted before it, the final cursor offset equals the total
    payload length — and the session is committed against the destination
    path with overwrite semantics and an empty terminal payload.
    (`dbx_upload_in_chunks` records exactly this trace, instantiated at
    the source's 4 MB chunk size.) -/
theorem C4_chunked_upload_protocol (cs : Nat) (path : String) (data : ByteSeq)
    (hcs : 0 < cs) :
    ((mkChunkTrace cs path data).firstChunk ++
      ((mkChunkTrace cs path data).appends.map Prod.fst).flatten = data) ∧
    ((mkChunkTrace cs path data).firstChunk = data.take cs) ∧
    (∀ k, (hk : k < (mkChunkTrace cs path data).appends.length) →
      ((mkChunkTrace cs path data).appends.get ⟨k, hk⟩).2 =
        ((mkChunkTrace cs path data).firstChunk ++
          (((mkChunkTrace cs path data).appends.take k).map Prod.fst).flatten).length) ∧
    ((mkChunkTrace cs path data).finishOffset = data.length) ∧
    ((mkChunkTrace cs path data).finishData = []) ∧
    ((mkChunkTrace cs path data).commitPath = path) ∧
    ((mkChunkTrace cs path data).commitOverwrite = true) ∧
    (∀ st : DbxState,
      (dbx_upload_in_chunks st path data).1.chunkTraces =
        st.chunkTraces ++ [mkChunkTrace dropboxChunkSize path data] ∧
      (dbx_upload_in_chunks st path data).2 = .ok ()) := by
  obtain ⟨hj, hfin, hofs⟩ :=
    sessionLoop_spec cs hcs data data.length cs (data.take cs).length (by omega)
  refine ⟨?_, rfl, ?_, ?_, rfl, rfl, rfl, fun st => ⟨rfl, rfl⟩⟩
  · show data.take cs ++
      ((sessionLoop cs data data.length cs (data.take cs).length).1.map Prod.fst).flatten
        = data
    rw [hj]
    exact List.take_append_drop cs data
  · intro k hk
    show ((sessionLoop cs data data.length cs (data.take cs).length).1.get ⟨k, hk⟩).2 =
      (data.take cs ++
        (((sessionLoop cs data data.length cs (data.take cs).length).1.take k).map
          Prod.fst).flatten).length
    rw [List.length_append]
    exact hofs k hk
  · show (sessionLoop cs data data.length cs (data.take cs).length).2 = data.length
    rw [hfin]
    have h1 : (data.take cs).length = min cs data.length := by simp
    have h2 : (data.drop cs).length = data.length - cs := by simp
    omega

/-- Witness for C4: a five-byte payload with chunk size 2 yields the
    trace with chunks `[1,2] | [3,4] | [5]` at offsets `2` and `4`. -/
theorem C4_chunked_upload_witness :
    ((mkChunkTrace 2 "p" [1, 2, 3, 4, 5]).firstChunk ++
      ((mkChunkTrace 2 "p" [1, 2, 3, 4, 5]).appends.map Prod.fst).flatten =
        [1, 2, 3, 4, 5]) ∧
    ((mkChunkTrace 2 "p" [1, 2, 3, 4, 5]).finishOffset = 5) ∧
    (((mkChunkTrace 2 "p" [1, 2, 3, 4, 5]).appends.get ⟨1, by decide⟩).2 =
      ((mkChunkTrace 2 "p" [1, 2, 3, 4, 5]).firstChunk ++
        (((mkChunkTrace 2 "p" [1, 2, 3, 4, 5]).appends.take 1).map Prod.fst).flatten).length) :=
  ⟨(C4_chunked_upload_protocol 2 "p" [1, 2, 3, 4, 5] (by decide)).1,
   (C4_chunked_upload_protocol 2 "p" [1, 2, 3, 4, 5] (by decide)).2.2.2.1,
   (C4_chunked_upload_protocol 2 "p" [1, 2, 3, 4, 5] (by decide)).2.2.1 1 (by decide)⟩

/-! ## Claim C5 -/

/-- Claim C5 (counterexample): the Dropbox writer performs no type check —
    writing text data in binary mode succeeds and stores the data in the
    cache, instead of failing with a TypeMismatch error and performing no
    write. -/
theorem C5_type_mismatch_counterexample :
    (dbx_write (dbxInit true) "p" (.text [104]) .wb).2 = .ok () ∧
    lookupStore (dbx_write (dbxInit true) "p" (.text [104]) .wb).1.cache "p" =
      some (.text [104]) ∧
    Mode.wb.hasB = true ∧ (Content.text [104]).isText = true :=
  ⟨rfl, rfl, rfl, rfl⟩

/-- Claim C5 (amended): only the S3 backend rejects a binary/text flag
    that disagrees with the supplied data, raising `ValueError` before any
    write; the local backend raises the runtime's `TypeError` at
    `file.write` time, but in overwrite mode `open` has already truncated
    the file; the Dropbox backend performs no check at all — mismatched
    data is cached as-is (or uploaded, with text encoded to UTF-8) without
    error. -/
theorem C5_type_checks_amended :
    (∀ (st : S3State) (p : String) (data : Content) (mode : Mode),
      modeMismatch data mode = true →
      s3_write st p data mode = (st, .error .valueErr)) ∧
    (∀ (st : LocalState) (p : String) (data : Content),
      modeMismatch data .w = true →
      local_write st p data .w = ({ fs := setStore st.fs p [] }, .error .typeErr)) ∧
    (∀ (st : LocalState) (p : String) (data : Content),
      modeMismatch data .wb = true →
      local_write st p data .wb = ({ fs := setStore st.fs p [] }, .error .typeErr)) ∧
    (∀ (st : DbxState) (p : String) (s : List Nat), st.useCache = true →
      dbx_write st p (.text s) .wb =
        ({ st with cache := setStore st.cache p (.text s) }, .ok ())) ∧
    (∀ (st : DbxState) (p : String) (b : ByteSeq), st.useCache = true →
      dbx_write st p (.bytes b) .w =
        ({ st with cache := setStore st.cache p (.bytes b) }, .ok ())) ∧
    (∀ (st : DbxState) (p : String) (s : List Nat), st.useCache = false →
      lookupStore st.uploadFaults p = none →
      (dbx_write st p (.text s) .wb).2 = .ok () ∧
      (dbx_write st p (.text s) .wb).1.remote = setStore st.remote p (utf8Encode s)) := by
  refine ⟨?_, ?_, ?_, ?_, ?_, ?_⟩
  · intro st p data mode hm
    cases data <;> cases hb : mode.hasB <;>
      simp_all [s3_write, modeMismatch, Content.isText, Content.isBytes]
  · intro st p data hm
    cases data <;> simp_all [local_write, modeMismatch, Mode.hasX, Mode.hasA,
      Content.isText, Content.isBytes]
  · intro st p data hm
    cases data <;> simp_all [local_write, modeMismatch, Mode.hasX, Mode.hasA,
      Content.isText, Content.isBytes]
  · intro st p s hu
    rw [dbx_write_plain st p (.text s) .wb rfl rfl]
    rw [hu]
    rfl
  · intro st p b hu
    rw [dbx_write_plain st p (.bytes b) .w rfl rfl]
    rw [hu]
    rfl
  · intro st p s hu hf
    rw [dbx_write_plain st p (.text s) .wb rfl rfl, hu]
    obtain ⟨hok, hrem, _, _, _, _⟩ := dbx_write_to_dropbox_spec st p (.text s) hf
    exact ⟨hok, hrem⟩

/-- Witness for the amended C5 at concrete inputs. -/
theorem C5_type_checks_witness :
    s3_write (s3Init true) "p" (.text [104]) .wb = (s3Init true, .error .valueErr) ∧
    local_write ⟨[("p", [1, 2])]⟩ "p" (.bytes [3]) .w =
      ({ fs := setStore [("p", [1, 2])] "p" [] }, .error .typeErr) ∧
    dbx_write (dbxInit true) "p" (.bytes [3]) .w =
      ({ dbxInit true with cache := setStore [] "p" (.bytes [3]) }, .ok ()) :=
  ⟨C5_type_checks_amended.1 (s3Init true) "p" (.text [104]) .wb rfl,
   C5_type_checks_amended.2.1 ⟨[("p", [1, 2])]⟩ "p" (.bytes [3]) rfl,
   C5_type_checks_amended.2.2.2.2.1 (dbxInit true) "p" [3] rfl⟩

/-! ## Claim C6 -/

/-- Claim C6 (code bug): with caching enabled on the Dropbox adapter, an
    append-mode write to a path that exists in neither the cache nor the
    remote store raises `FileNotFoundError` instead of creating the file:
    `read_from_dropbox` converts the not-found `ApiError` into
    `FileNotFoundError`, which `_append_to_cache`'s `except ApiError`
    handler (the branch documented to "start with the new content") can
    never catch.  The state is returned unchanged: nothing is
    materialized. -/
theorem C6_append_missing_path_bug :
    dbx_write (dbxInit true) "p" (.text [120]) .a =
      (dbxInit true, .error .fileNotFound) :=
  rfl

/-! ## Claim C7 -/

/-- Claim C7 (counterexample): a backend error other than not-found does
    not propagate out of `delete` on the remote adapters — the Dropbox
    handler catches every `ApiError` (here one whose path lookup is not
    `not_found`) and the S3 handler catches every `ClientError`, merely
    logging them and returning normally. -/
theorem C7_delete_counterexample :
    dbx_delete (dbxInit false) "p" (some false) = (dbxInit false, .ok ()) ∧
    s3_delete (s3Init false) "p" (some ()) = (s3Init false, .ok ()) :=
  ⟨rfl, rfl⟩

/-- Claim C7 (amended): `delete` is idempotent from the caller's
    perspective on every backend — deleting an absent object is logged and
    raises nothing; but a backend error other than not-found propagates
    only on the local backend: the Dropbox and S3 adapters catch and log
    every backend API error without re-raising. -/
theorem C7_delete_amended :
    (∀ (st : DbxState) (p : String), lookupStore st.remote p = none →
      dbx_delete st p none = (st, .ok ())) ∧
    (∀ (st : S3State) (p : String), lookupStore st.remote p = none →
      s3_delete st p none = ({ st with numCalls := st.numCalls + 1 }, .ok ())) ∧
    (∀ (st : LocalState) (p : String), lookupStore st.fs p = none →
      local_delete st p none = (st, .ok ())) ∧
    (∀ (st : DbxState) (p : String) (nf : Bool),
      dbx_delete st p (some nf) = (st, .ok ())) ∧
    (∀ (st : S3State) (p : String), s3_delete st p (some ()) = (st, .ok ())) ∧
    (∀ (st : LocalState) (p : String),
      local_delete st p (some ()) = (st, .error .osError)) := by
  refine ⟨?_, ?_, ?_, ?_, ?_, ?_⟩
  · intro st p h
    simp [dbx_delete, h]
  · intro st p h
    simp [s3_delete, h]
  · intro st p h
    simp [local_delete, h]
  · intro st p nf
    rfl
  · intro st p
    rfl
  · intro st p
    rfl

/-- Witness for the amended C7 at concrete states. -/
theorem C7_delete_witness :
    dbx_delete (dbxInit true) "p" none = (dbxInit true, .ok ()) ∧
    s3_delete (s3Init true) "p" none =
      ({ s3Init true with numCalls := 1 }, .ok ()) ∧
    local_delete ⟨[]⟩ "p" none = (⟨[]⟩, .ok ()) ∧
    local_delete ⟨[]⟩ "p" (some ()) = (⟨[]⟩, .error .osError) :=
  ⟨C7_delete_amended.1 (dbxInit true) "p" rfl,
   C7_delete_amended.2.1 (s3Init true) "p" rfl,
   C7_delete_amended.2.2.1 ⟨[]⟩ "p" rfl,
   C7_delete_amended.2.2.2.2.2 ⟨[]⟩ "p"⟩

/-! ## Claim C8 -/

/-- Claim C8: when the single-request upload fails with a transient
    timeout attributable to request size, the writer shrinks
    `large_file_limit` to the attempted payload's byte size minus the
    fixed 5 MB margin (exactly, in exact rational arithmetic), and retries
    the same payload via the chunked upload path: the result of the write
    is precisely `_upload_in_chunks` run on the same payload under the
    shrunk limit, and the chunked session trace for this payload is
    recorded. -/
theorem C8_timeout_shrink_and_chunked_retry (st : DbxState) (path : String)
    (data : Content) (mode : Mode)
    (hc : st.useCache = false) (ha : mode.hasA = false) (hx : mode.hasX = false)
    (hf : lookupStore st.uploadFaults path = some .connTimeout)
    (hsize : (data.toBytes.length : Int) ≤ st.largeFileLimit) :
    dbx_write st path data mode =
      dbx_upload_in_chunks
        { st with largeFileLimit := (data.toBytes.length : Int) - 5 * 1024 ^ 2 }
        path data.toBytes ∧
    (dbx_write st path data mode).1.largeFileLimit =
      (data.toBytes.length : Int) - 5 * 1024 ^ 2 ∧
    (dbx_write st path data mode).1.chunkTraces =
      st.chunkTraces ++ [mkChunkTrace dropboxChunkSize path data.toBytes] ∧
    (dbx_write st path data mode).2 = .ok () := by
  rw [dbx_write_plain st path data mode ha hx, hc]
  simp only [if_false, Bool.false_eq_true]
  unfold dbx_write_to_dropbox
  rw [if_neg (by omega)]
  unfold dbx_upload_regular
  rw [hf]
  simp only [newSizeLimitAfterTimeout_eq]
  refine ⟨?_, rfl, rfl, rfl⟩
  rw [hc]

/-- Witness for C8: a three-byte payload whose single-request upload times
    out is retried in chunks under the limit `3 - 5 MB`. -/
theorem C8_timeout_witness :
    (dbx_write { dbxInit false with uploadFaults := [("p", .connTimeout)] }
      "p" (.bytes [1, 2, 3]) .wb).1.largeFileLimit = (3 : Int) - 5 * 1024 ^ 2 ∧
    (dbx_write { dbxInit false with uploadFaults := [("p", .connTimeout)] }
      "p" (.bytes [1, 2, 3]) .wb).1.chunkTraces =
      [mkChunkTrace dropboxChunkSize "p" [1, 2, 3]] ∧
    (dbx_write { dbxInit false with uploadFaults := [("p", .connTimeout)] }
      "p" (.bytes [1, 2, 3]) .wb).2 = .ok () :=
  ⟨(C8_timeout_shrink_and_chunked_retry
      { dbxInit false with uploadFaults := [("p", .connTimeout)] }
      "p" (.bytes [1, 2, 3]) .wb rfl rfl rfl rfl (by decide)).2.1,
   (C8_timeout_shrink_and_chunked_retry
      { dbxInit false with uploadFaults := [("p", .connTimeout)] }
      "p" (.bytes [1, 2, 3]) .wb rfl rfl rfl rfl (by decide)).2.2.1,
   (C8_timeout_shrink_and_chunked_retry
      { dbxInit false with uploadFaults := [("p", .connTimeout)] }
      "p" (.bytes [1, 2, 3]) .wb rfl rfl rfl rfl (by decide)).2.2.2⟩

/-! ## Claim C9 -/

/-- Claim C9: with caching enabled, `write(p, c, Overwrite)` followed
    immediately by `read(p)` issues no remote call on either remote
    adapter — the write lands in the cache, the read is a cache hit, and
    `num_calls` after the pair equals its value before it. -/
theorem C9_cache_transparency (stD : DbxState) (stS : S3State) (p : String)
    (c : Content) (hD : stD.useCache = true) (hS : stS.useCache = true) :
    (dbx_write stD p c (writeModeFor c)).2 = .ok () ∧
    (dbx_read (dbx_write stD p c (writeModeFor c)).1 p (readModeFor c)).2 = .ok c ∧
    (dbx_read (dbx_write stD p c (writeModeFor c)).1 p (readModeFor c)).1.numCalls =
      stD.numCalls ∧
    (s3_write stS p c (writeModeFor c)).2 = .ok () ∧
    (s3_read (s3_write stS p c (writeModeFor c)).1 p (readModeFor c)).2 = .ok c ∧
    (s3_read (s3_write stS p c (writeModeFor c)).1 p (readModeFor c)).1.numCalls =
      stS.numCalls := by
  rw [dbx_write_plain stD p c (writeModeFor c) (by cases c <;> rfl)
    (by cases c <;> rfl), hD]
  rw [s3_write_plain stS p c]
  simp [dbx_read, dbx_read_from_cache, dbx_get_file, lookupStore_setStore_self,
    s3_cache_or_put, hS, s3_read]

/-- Witness for C9 at concrete states. -/
theorem C9_cache_transparency_witness :
    (dbx_read (dbx_write (dbxInit true) "p" (.text [104]) .w).1 "p" .r).1.numCalls =
      0 ∧
    (s3_read (s3_write (s3Init true) "p" (.text [104]) .w).1 "p" .r).1.numCalls = 0 :=
  ⟨(C9_cache_transparency (dbxInit true) (s3Init true) "p" (.text [104])
      rfl rfl).2.2.1,
   (C9_cache_transparency (dbxInit true) (s3Init true) "p" (.text [104])
      rfl rfl).2.2.2.2.2⟩

/-! ## Claim C10 -/

/-- Claim C10: on the Dropbox adapter with caching enabled, a read that
    misses the cache stores the raw bytes of the remote response in the
    cache even when text mode was requested (and returns the decoded
    text); a subsequent cache-hit read returns the cached value unchanged
    without consulting the requested mode, so a second text-mode read of
    the same path returns bytes. -/
theorem C10_cache_stores_raw_bytes (st : DbxState) (p : String) (s : List Nat)
    (hu : st.useCache = true) (hc : lookupStore st.cache p = none)
    (hr : lookupStore st.remote p = some (utf8Encode s))
    (hv : ∀ c ∈ s, c < 0x110000) :
    (dbx_read st p .r).2 = .ok (.text s) ∧
    lookupStore (dbx_read st p .r).1.cache p = some (.bytes (utf8Encode s)) ∧
    (dbx_read (dbx_read st p .r).1 p .r).2 = .ok (.bytes (utf8Encode s)) := by
  simp [dbx_read, hu, dbx_read_from_cache, dbx_get_file, hc, dbx_read_from_dropbox,
    hr, Mode.hasB, utf8Decode_utf8Encode s hv, lookupStore_setStore_self]

/-- Witness for C10: a one-character file first reads as text, then as
    bytes. -/
theorem C10_cache_stores_raw_bytes_witness :
    (dbx_read { dbxInit true with remote := [("p", utf8Encode [104])] } "p" .r).2 =
      .ok (.text [104]) ∧
    (dbx_read (dbx_read { dbxInit true with remote := [("p", utf8Encode [104])] }
      "p" .r).1 "p" .r).2 = .ok (.bytes (utf8Encode [104])) :=
  ⟨(C10_cache_stores_raw_bytes { dbxInit true with remote := [("p", utf8Encode [104])] }
      "p" [104] rfl rfl rfl (by decide)).1,
   (C10_cache_stores_raw_bytes { dbxInit true with remote := [("p", utf8Encode [104])] }
      "p" [104] rfl rfl rfl (by decide)).2.2⟩
